import Mathlib

/-!
# Verification of the person-recognition matching core (mobile app)

Shallow embedding of the recognition pipeline implemented in
`src/mobile/app/index.tsx` of the SFHacks2025 repository.

The embedded pieces are:
* the per-person cooldown check `canShowPerson` (lines 171-175), which reads a
  mutable record `lastDetectionTime.current` mapping person names to the
  millisecond timestamp of the last accepted detection, defaulting a missing
  entry to `0` via JavaScript `|| 0`;
* the tail of `captureAndSendFrame` (lines 204-210), which inspects
  `result.persons`, accepts `result.persons[0]` when its `similarity` is
  strictly greater than the literal `0.6` and the cooldown check passes,
  and in that case calls `setDetectedPerson(result.persons[0])` (the
  consumer-facing emission) and records `Date.now()` for that name;
* the whole async function `captureAndSendFrame` (lines 177-213), which has
  no try/catch, so an error thrown by the camera, the image manipulator or
  `fetch` rejects the cycle's promise;
* the polling loop `setInterval(captureAndSendFrame, CAPTURE_INTERVAL)` with
  its `clearInterval` cleanup (lines 159-162), which has no in-flight guard
  and no stopped-flag check inside the cycle body;
* the hardcoded `profileData` table (lines 61-74) and the render guard
  `detectedPerson && profileData[detectedPerson.name] && (...)` (line 258).

Modelling conventions: timestamps are `Int` milliseconds (`Date.now()`);
similarity scores are `ℚ`, the JavaScript literal `0.6` being embedded as
`3/5`; the mutable map keyed by person name is an association list whose
most recent write shadows older entries; the synchronous block between two
`await`s of a cycle is one atomic step, matching JavaScript's
run-to-completion semantics.
-/

/-- The mutable map `lastDetectionTime.current : { [key: string]: number }`:
person name ↦ millisecond timestamp of the last accepted detection.  A write
prepends; `List.lookup` returns the most recent write. -/
abbrev GateState := List (String × Int)

/-- Reading `lastDetectionTime.current[personName] || 0` — a missing entry
(and an entry holding `0`, which JavaScript `||` treats identically) reads
as `0`. -/
def lookupLast (st : GateState) (personName : String) : Int :=
  (st.lookup personName).getD 0

/-- Lines 171-175:
`canShowPerson(personName)` returns `now - lastTime > 30000` where
`lastTime = lastDetectionTime.current[personName] || 0`.  The wall-clock
argument `now` makes the `Date.now()` read explicit. -/
def canShowPerson (st : GateState) (personName : String) (now : Int) : Bool :=
  decide (30000 < now - lookupLast st personName)

/-- Line 209: `lastDetectionTime.current[result.persons[0].name] = Date.now()`. -/
def record (st : GateState) (personName : String) (now : Int) : GateState :=
  (personName, now) :: st

/-- The `DetectedPerson` interface (lines 44-48).  `similarity` is embedded
as an exact rational. -/
structure DetectedPerson where
  name : String
  similarity : ℚ
  relation : String
deriving DecidableEq, Repr

/-- The parsed body of the `/detect` response (line 204).  `persons` is
`none` when the JSON has no `persons` field (the `result.persons &&` guard). -/
structure DetectResult where
  persons : Option (List DetectedPerson)
deriving DecidableEq, Repr

/-- Lines 204-210, the synchronous tail of one capture cycle:

```
if (result.persons && result.persons.length > 0 &&
    result.persons[0].similarity > 0.6 &&
    canShowPerson(result.persons[0].name)) {
  setDetectedPerson(result.persons[0]);
  lastDetectionTime.current[result.persons[0].name] = Date.now();
}
```

Returns the updated gate state and `some p` when `setDetectedPerson p` was
called (the emission to the consumer), `none` otherwise.  The check at
line 207 and the write at line 209 run in one synchronous block with no
`await` between them, so both use the same `now`. -/
def ingestStep (st : GateState) (result : DetectResult) (now : Int) :
    GateState × Option DetectedPerson :=
  match result.persons with
  | none => (st, none)
  | some [] => (st, none)
  | some (p :: _) =>
    if decide ((3 : ℚ)/5 < p.similarity) && canShowPerson st p.name now then
      (record st p.name now, some p)
    else (st, none)

/-- A sequence of completed capture cycles, each carrying its parsed
`/detect` response and the `Date.now()` at its synchronous tail.  Returns
the final gate state and the list of emissions `(person, time)` in order.
Cycle tails are serialized by the JavaScript event loop, so a sequential
fold is faithful even when cycles overlap in flight. -/
def runCycles : GateState → List (DetectResult × Int) →
    GateState × List (DetectedPerson × Int)
  | st, [] => (st, [])
  | st, (r, t) :: rest =>
    match ingestStep st r t with
    | (st', none) => runCycles st' rest
    | (st', some p) =>
      let out := runCycles st' rest
      (out.1, (p, t) :: out.2)

/-- The emission timestamps for one person name, in trace order. -/
def emissionsFor (personName : String) (ems : List (DetectedPerson × Int)) :
    List Int :=
  (ems.filter (fun e => e.1.name == personName)).map (fun e => e.2)

/-- Errors a collaborator can throw during one cycle: `takePictureAsync`,
`ImageManipulator.manipulateAsync`, or `fetch`/`response.json()`. -/
inductive CollabError
  | cameraFailure
  | manipulateFailure
  | fetchFailure
deriving DecidableEq, Repr

/-- The externally determined course of one cycle of `captureAndSendFrame`:
`noCamera` — `cameraRef.current` was null, body skipped (line 178);
`noPhoto` — `takePictureAsync` returned null, early return (line 186);
`response r t` — the awaits succeeded, yielding parsed body `r`, with
`Date.now() = t` at the synchronous tail. -/
inductive CycleInput
  | noCamera
  | noPhoto
  | response (r : DetectResult) (t : Int)
deriving DecidableEq, Repr

/-- Lines 177-213, the whole async function `captureAndSendFrame`.  The
function body contains no try/catch, so when a collaborator throws, the
cycle's promise rejects with that error (`Except.error`); nothing in the
function intercepts it.  On a successful course the function returns
normally (`Except.ok`) with the effect of `ingestStep`. -/
def captureAndSendFrame (st : GateState) (outcome : Except CollabError CycleInput) :
    Except CollabError (GateState × Option DetectedPerson) :=
  match outcome with
  | .error e => .error e
  | .ok .noCamera => .ok (st, none)
  | .ok .noPhoto => .ok (st, none)
  | .ok (.response r t) => .ok (ingestStep st r t)

/-- A sequence of cycles as driven by `setInterval` (line 160): the timer
fires again regardless of how the previous invocation's promise settled —
a rejected promise is an unhandled rejection and does not stop the
interval.  A rejected cycle contributes no emission and leaves the gate
state untouched (the throw happens before lines 204-210 run). -/
def runCyclesE : GateState → List (Except CollabError CycleInput) →
    GateState × List DetectedPerson
  | st, [] => (st, [])
  | st, c :: rest =>
    match captureAndSendFrame st c with
    | .error _ => runCyclesE st rest
    | .ok (st', none) => runCyclesE st' rest
    | .ok (st', some p) =>
      let out := runCyclesE st' rest
      (out.1, p :: out.2)

/-- Observable state of one recognition session (the mounted `App`
component): whether the `setInterval` timer is still registered (cleared by
the effect cleanup at line 161), how many invocations of
`captureAndSendFrame` are currently suspended at an `await`, the cooldown
map, and the emissions so far (most recent first). -/
structure SessionState where
  intervalActive : Bool
  inFlightCount : Nat
  gate : GateState
  emitted : List (DetectedPerson × Int)
deriving DecidableEq, Repr

/-- Scheduler-level events of one session.
`tick` — the interval timer fires and invokes `captureAndSendFrame`;
`stop` — the effect cleanup runs `clearInterval` (line 161);
`complete r t` — one suspended invocation resumes past its last `await`
and runs lines 204-210 with parsed body `r` at time `t`. -/
inductive SessionEvent
  | tick
  | stop
  | complete (r : DetectResult) (t : Int)
deriving DecidableEq, Repr

/-- One scheduler step, transcribing the code's guards exactly:
a `tick` starts a new cycle whenever the interval is registered — line 160
installs `captureAndSendFrame` directly, with no in-flight guard, so ticks
are never skipped; `stop` merely unregisters the timer; a `complete`
applies the cycle's tail unconditionally — `captureAndSendFrame` checks no
stopped flag after its awaits, so a cleared interval does not prevent the
in-flight cycle from emitting and recording. -/
def stepEvent (s : SessionState) : SessionEvent → SessionState
  | .tick =>
    if s.intervalActive then { s with inFlightCount := s.inFlightCount + 1 } else s
  | .stop => { s with intervalActive := false }
  | .complete r t =>
    if s.inFlightCount = 0 then s
    else
      match ingestStep s.gate r t with
      | (g', none) =>
        { s with inFlightCount := s.inFlightCount - 1, gate := g' }
      | (g', some p) =>
        { s with inFlightCount := s.inFlightCount - 1, gate := g',
                 emitted := (p, t) :: s.emitted }

/-- Fold a list of scheduler events. -/
def runEvents (s : SessionState) (evs : List SessionEvent) : SessionState :=
  evs.foldl stepEvent s

/-- The session as mounted: timer registered, nothing in flight, empty
cooldown map, nothing emitted. -/
def initialSession : SessionState :=
  { intervalActive := true, inFlightCount := 0, gate := [], emitted := [] }

/-- Presentation data attached to a profile entry (lines 50-55); the icon
component and the bundled image are identified by their asset names. -/
structure ProfileInfo where
  fullName : String
  relation : String
  image : String
deriving DecidableEq, Repr

/-- The hardcoded profile table (lines 61-74): exactly two entries. -/
def profileData : List (String × ProfileInfo) :=
  [("Daniel", ⟨"Daniel Kim", "Your Grandson", "daniel-half.png"⟩),
   ("Michelle", ⟨"Michelle Feng", "Your Granddaughter", "michelle-half.png"⟩)]

/-- The render guard at line 258:
`detectedPerson && profileData[detectedPerson.name] && (...)`.
Returns the `ProfileInfo` whose fields the card displays (lines 260-274),
or `none` when no card content is rendered. -/
def renderCard (detectedPerson : Option DetectedPerson) : Option ProfileInfo :=
  match detectedPerson with
  | none => none
  | some p => profileData.lookup p.name


/-! ## Helper lemmas -/

/-- A freshly recorded time shadows older entries for the same name. -/
theorem lookupLast_record_self (st : GateState) (n : String) (t : Int) :
    lookupLast (record st n t) n = t := by
  simp [lookupLast, record, List.lookup]

/-- Recording one name leaves the reading for any other name unchanged. -/
theorem lookupLast_record_ne (st : GateState) (n m : String) (t : Int)
    (h : m ≠ n) : lookupLast (record st n t) m = lookupLast st m := by
  have hb : (m == n) = false := by simp [h]
  simp [lookupLast, record, List.lookup, hb]

/-- A cycle that emits nothing leaves the gate state unchanged. -/
theorem ingestStep_eq_none (st : GateState) (r : DetectResult) (t : Int)
    (st' : GateState) (h : ingestStep st r t = (st', none)) : st' = st := by
  rcases r with ⟨_ | (_ | ⟨q, rest⟩)⟩ <;> simp only [ingestStep] at h
  · exact (Prod.mk.injEq .. ▸ h).1.symm
  · exact (Prod.mk.injEq .. ▸ h).1.symm
  · split at h
    · simp at h
    · exact (Prod.mk.injEq .. ▸ h).1.symm

/-- A cycle that emits `p` passed the cooldown check for `p.name` and
recorded the cycle's time for `p.name`. -/
theorem ingestStep_eq_some (st : GateState) (r : DetectResult) (t : Int)
    (st' : GateState) (p : DetectedPerson)
    (h : ingestStep st r t = (st', some p)) :
    st' = record st p.name t ∧ canShowPerson st p.name t = true := by
  rcases r with ⟨_ | (_ | ⟨q, rest⟩)⟩ <;> simp only [ingestStep] at h
  · simp at h
  · simp at h
  · split at h
    · rename_i hcond
      obtain ⟨h1, h2⟩ := Prod.mk.injEq .. ▸ h
      obtain rfl : q = p := Option.some.inj h2
      rw [Bool.and_eq_true] at hcond
      exact ⟨h1.symm, hcond.2⟩
    · simp at h

/-- Along any trace of completed cycles, the emission times for one person
name form a chain above the initially recorded time, each link more than
30000 ms after the previous. -/
theorem chain_emissions (personName : String)
    (cycles : List (DetectResult × Int)) :
    ∀ st : GateState,
      List.Chain (fun a b => 30000 < b - a) (lookupLast st personName)
        (emissionsFor personName (runCycles st cycles).2) := by
  induction cycles with
  | nil =>
    intro st
    simp [runCycles, emissionsFor]
  | cons c rest ih =>
    intro st
    obtain ⟨r, t⟩ := c
    rcases hstep : ingestStep st r t with ⟨st', eo⟩
    rcases eo with _ | p
    · have hst : st' = st := ingestStep_eq_none st r t st' hstep
      rw [hst] at hstep
      simpa only [runCycles, hstep] using ih st
    · obtain ⟨hst, hcan⟩ := ingestStep_eq_some st r t st' p hstep
      subst hst
      simp only [runCycles, hstep]
      by_cases hname : p.name = personName
      · subst hname
        have hfil : emissionsFor p.name
              ((p, t) :: (runCycles (record st p.name t) rest).2)
            = t :: emissionsFor p.name (runCycles (record st p.name t) rest).2 := by
          simp [emissionsFor]
        rw [hfil]
        refine List.Chain.cons ?_ ?_
        · exact of_decide_eq_true hcan
        · have h := ih (record st p.name t)
          rwa [lookupLast_record_self] at h
      · have hfil : emissionsFor personName
              ((p, t) :: (runCycles (record st p.name t) rest).2)
            = emissionsFor personName (runCycles (record st p.name t) rest).2 := by
          simp [emissionsFor, hname]
        rw [hfil]
        have h := ih (record st p.name t)
        rwa [lookupLast_record_ne st p.name personName t
          (fun he => hname he.symm)] at h

/-! ## Claims -/

/-- C1 (counterexample): the claim says a person never announced before is
always allowed, but `canShowPerson` defaults a missing entry to time `0`,
so a fresh person queried at `now = 0` (more generally any `now ≤ 30000`)
is refused: here `"Alice"` is absent from the empty map, yet the gate
returns `false`. -/
theorem C1_counterexample_fresh_refused :
    ([] : GateState).lookup "Alice" = none ∧
    canShowPerson [] "Alice" 0 = false := by
  exact ⟨rfl, rfl⟩

/-- C1 (amended): the gate treats a never-announced person as last announced
at epoch time `0`; whenever the current time exceeds 30000 ms (every
realistic `Date.now()` reading), the claimed behaviour holds: a fresh
person is allowed at `t0`, the accepting cycle emits them and records `t0`
as the new last-announced time, and subsequently `t0 + 29000` is refused
while `t0 + 31000` is allowed (the comparison being strictly greater than
30000 ms). -/
theorem C1_cooldown_gate_amended (st : GateState) (nm rel : String) (s : ℚ)
    (t0 : Int) (hfresh : st.lookup nm = none) (ht0 : 30000 < t0)
    (hs : (3 : ℚ)/5 < s) :
    canShowPerson st nm t0 = true ∧
    ingestStep st ⟨some [⟨nm, s, rel⟩]⟩ t0 = (record st nm t0, some ⟨nm, s, rel⟩) ∧
    canShowPerson (record st nm t0) nm (t0 + 29000) = false ∧
    canShowPerson (record st nm t0) nm (t0 + 31000) = true := by
  have hcan : canShowPerson st nm t0 = true := by
    simp only [canShowPerson, lookupLast, hfresh, Option.getD_none,
      decide_eq_true_eq]
    omega
  refine ⟨hcan, ?_, ?_, ?_⟩
  · simp [ingestStep, hs, hcan]
  · simp only [canShowPerson, lookupLast_record_self, decide_eq_false_iff_not]
    omega
  · simp only [canShowPerson, lookupLast_record_self, decide_eq_true_eq]
    omega

/-- C1 witness: the amended theorem applied at the fresh person
`"Alice"` with similarity `1` at `t0 = 40000`. -/
theorem C1_cooldown_gate_amended_witness :
    canShowPerson [] "Alice" 40000 = true ∧
    ingestStep [] ⟨some [⟨"Alice", 1, "friend"⟩]⟩ 40000
      = (record [] "Alice" 40000, some ⟨"Alice", 1, "friend"⟩) ∧
    canShowPerson (record [] "Alice" 40000) "Alice" (40000 + 29000) = false ∧
    canShowPerson (record [] "Alice" 40000) "Alice" (40000 + 31000) = true :=
  C1_cooldown_gate_amended [] "Alice" "friend" 1 40000 rfl (by decide) (by norm_num)

/-- C2 (counterexample): the claim says a best similarity exactly equal to
the threshold `0.6` is accepted and surfaced, but line 206 compares with
strict `>`: a first detection whose similarity is exactly `3/5`, with the
cooldown satisfied (`now = 100000` against an empty map), emits nothing and
leaves the gate untouched. -/
theorem C2_counterexample_exact_threshold :
    canShowPerson [] "Daniel" 100000 = true ∧
    ingestStep [] ⟨some [⟨"Daniel", 3/5, "Your Grandson"⟩]⟩ 100000
      = ([], none) := by
  refine ⟨rfl, ?_⟩
  have h : ¬ ((3 : ℚ)/5 < 3/5) := lt_irrefl _
  simp [ingestStep, h]

/-- C2 (amended): the threshold comparison at line 206 is strict: given the
cooldown check passes, the first detected person is emitted iff their
similarity is strictly greater than `3/5`; in particular a similarity
exactly equal to the threshold produces no emission and no state change
(and a fortiori neither does one one ULP below). -/
theorem C2_threshold_strict_amended (st : GateState) (p : DetectedPerson)
    (rest : List DetectedPerson) (now : Int)
    (hcool : canShowPerson st p.name now = true) :
    ((ingestStep st ⟨some (p :: rest)⟩ now).2 = some p ↔ (3 : ℚ)/5 < p.similarity) ∧
    (p.similarity = 3/5 → ingestStep st ⟨some (p :: rest)⟩ now = (st, none)) := by
  constructor
  · by_cases hs : (3 : ℚ)/5 < p.similarity <;> simp [ingestStep, hcool, hs]
  · intro hs
    have : ¬ ((3 : ℚ)/5 < p.similarity) := by rw [hs]; exact lt_irrefl _
    simp [ingestStep, this]

/-- C2 witness: the amended theorem applied at a person of similarity
`7/10` against an empty gate at `now = 40000`. -/
theorem C2_threshold_strict_amended_witness :
    (((ingestStep [] ⟨some [⟨"Daniel", 7/10, "Your Grandson"⟩]⟩ 40000).2
        = some ⟨"Daniel", 7/10, "Your Grandson"⟩) ↔
      (3 : ℚ)/5 < (7 : ℚ)/10) ∧
    ((7 : ℚ)/10 = 3/5 →
      ingestStep [] ⟨some [⟨"Daniel", 7/10, "Your Grandson"⟩]⟩ 40000 = ([], none)) :=
  C2_threshold_strict_amended [] ⟨"Daniel", 7/10, "Your Grandson"⟩ [] 40000 rfl

/-- C4 (counterexample): the claim says an id absent from the map is
eligible regardless of the current time, but with the `|| 0` default an
absent `"Bob"` queried at `now = 20000` is refused. -/
theorem C4_counterexample_absent_refused :
    ([] : GateState).lookup "Bob" = none ∧
    canShowPerson [] "Bob" 20000 = false := by
  exact ⟨rfl, rfl⟩

/-- C4 (amended): an id absent from the map is treated as last announced at
epoch time `0`, so it is eligible exactly when the current time exceeds
30000 ms — in particular at every realistic `Date.now()` reading, but not
within the first 30 seconds after the epoch. -/
theorem C4_absent_eligibility_amended (st : GateState) (nm : String)
    (now : Int) (h : st.lookup nm = none) :
    canShowPerson st nm now = true ↔ 30000 < now := by
  simp [canShowPerson, lookupLast, h]

/-- C4 witness: the amended theorem applied at the empty map, `"Bob"`,
`now = 50000`. -/
theorem C4_absent_eligibility_amended_witness :
    canShowPerson [] "Bob" 50000 = true ↔ (30000 : Int) < 50000 :=
  C4_absent_eligibility_amended [] "Bob" 50000 rfl

/-- C5 (confirmed): a cycle in which no person is detected (`persons`
missing or empty) or the best similarity is below the threshold emits
nothing and leaves the cooldown map completely unchanged. -/
theorem C5_no_detection_no_effect (st : GateState) (r : DetectResult)
    (now : Int)
    (h : r.persons = none ∨ r.persons = some [] ∨
      ∃ p rest, r.persons = some (p :: rest) ∧ p.similarity < 3/5) :
    ingestStep st r now = (st, none) := by
  rcases r with ⟨persons⟩
  rcases h with h | h | ⟨p, rest, h, hp⟩ <;> simp only at h <;> subst h
  · rfl
  · rfl
  · have : ¬ ((3 : ℚ)/5 < p.similarity) := not_lt_of_gt hp
    simp [ingestStep, this]

/-- C5 witness: a detection of similarity `2/5` against a non-empty gate at
`now = 100`: nothing is emitted and the map is unchanged. -/
theorem C5_no_detection_no_effect_witness :
    ingestStep [("X", 5)] ⟨some [⟨"Y", 2/5, "friend"⟩]⟩ 100
      = ([("X", 5)], none) :=
  C5_no_detection_no_effect [("X", 5)] ⟨some [⟨"Y", 2/5, "friend"⟩]⟩ 100
    (Or.inr (Or.inr ⟨⟨"Y", 2/5, "friend"⟩, [], rfl, by norm_num⟩))

/-- C9 (confirmed): a cycle inspects only `result.persons[0]`; the outcome
— both the state update and the emission — is identical for any two
response bodies sharing the same first person, whatever the remaining
persons' similarities or cooldown standings are. -/
theorem C9_only_first_person (st : GateState) (now : Int)
    (p : DetectedPerson) (rest rest' : List DetectedPerson) :
    ingestStep st ⟨some (p :: rest)⟩ now
      = ingestStep st ⟨some (p :: rest')⟩ now := rfl

/-- C3 (confirmed): along any trace of completed cycles, any two emissions
for the same person name are more than 30000 ms apart — the gate records
the emission time atomically with the check (one synchronous block), so
each emission for a name is more than the cooldown interval after the
previous one, and the gaps accumulate for non-adjacent pairs. -/
theorem C3_emission_spacing (st : GateState)
    (cycles : List (DetectResult × Int)) (personName : String) :
    (emissionsFor personName (runCycles st cycles).2).Pairwise
      (fun a b => 30000 < b - a) := by
  haveI : IsTrans Int (fun a b => 30000 < b - a) :=
    ⟨fun a b c h1 h2 => by omega⟩
  have h := chain_emissions personName cycles st
  exact (List.pairwise_cons.mp (List.chain_iff_pairwise.mp h)).2

/-- C6 (counterexample): the claim says a collaborator error is caught at
the ingestion boundary and the cycle is treated as "no detection", but
`captureAndSendFrame` contains no try/catch: a `fetch` failure rejects the
cycle's promise with the error itself, which is not the "skipped cycle"
outcome `(st, none)`. -/
theorem C6_counterexample_error_propagates :
    captureAndSendFrame [] (.error .fetchFailure) = .error .fetchFailure ∧
    captureAndSendFrame [] (.error .fetchFailure) ≠ .ok ([], none) := by
  exact ⟨rfl, fun h => Except.noConfusion h⟩

/-- C6 (amended): a collaborator error is not caught inside
`captureAndSendFrame` — the cycle's promise rejects with the error
(propagating it out of the cycle as an unhandled rejection) — but the
failed cycle changes no state and emits nothing, and `setInterval` is
unaffected by the rejection, so the session keeps polling: the remaining
cycles are processed exactly as if the failed cycle had not happened. -/
theorem C6_error_cycle_skipped_amended (st : GateState) (e : CollabError)
    (rest : List (Except CollabError CycleInput)) :
    captureAndSendFrame st (.error e) = .error e ∧
    runCyclesE st (.error e :: rest) = runCyclesE st rest := by
  exact ⟨rfl, rfl⟩

/-- C7 (counterexample): the claim says no recognition is emitted after
stop, but a cycle in flight when `clearInterval` runs completes
unconditionally: in the trace tick–stop–complete, nothing has been emitted
by the time the interval is cleared, yet the completion afterwards emits
the detected person and records the time. -/
theorem C7_counterexample_emission_after_stop :
    (runEvents initialSession [.tick, .stop]).intervalActive = false ∧
    (runEvents initialSession [.tick, .stop]).emitted = [] ∧
    (runEvents initialSession
        [.tick, .stop,
         .complete ⟨some [⟨"Daniel", 9/10, "Your Grandson"⟩]⟩ 100000]).emitted
      = [(⟨"Daniel", 9/10, "Your Grandson"⟩, 100000)] := by
  refine ⟨rfl, rfl, ?_⟩
  have h : ((3 : ℚ)/5 < 9/10) := by norm_num
  simp [runEvents, initialSession, stepEvent, ingestStep, canShowPerson,
    lookupLast, h]

/-- C7 (amended): after the interval is cleared no new cycle ever starts
(a timer tick is a no-op), but the result of a cycle already in flight is
not discarded: its completion still applies the full pipeline, emitting
the recognition to the consumer and recording the last-announced time,
even though the session is stopped. -/
theorem C7_inflight_not_discarded_amended (s : SessionState)
    (r : DetectResult) (t : Int) (p : DetectedPerson)
    (hstopped : s.intervalActive = false)
    (hin : s.inFlightCount ≠ 0)
    (hemit : (ingestStep s.gate r t).2 = some p) :
    stepEvent s .tick = s ∧
    (stepEvent s (.complete r t)).emitted = (p, t) :: s.emitted := by
  constructor
  · simp [stepEvent, hstopped]
  · rcases hstep : ingestStep s.gate r t with ⟨g', eo⟩
    have heo : eo = some p := by rw [hstep] at hemit; exact hemit
    subst heo
    simp [stepEvent, hstep, hin]

/-- C7 witness: the amended theorem applied to a stopped session holding
one in-flight cycle whose response is a confident detection. -/
theorem C7_inflight_not_discarded_amended_witness :
    stepEvent ⟨false, 1, [], []⟩ .tick = ⟨false, 1, [], []⟩ ∧
    (stepEvent ⟨false, 1, [], []⟩
        (.complete ⟨some [⟨"Daniel", 9/10, "Your Grandson"⟩]⟩ 200000)).emitted
      = [(⟨"Daniel", 9/10, "Your Grandson"⟩, 200000)] :=
  C7_inflight_not_discarded_amended ⟨false, 1, [], []⟩
    ⟨some [⟨"Daniel", 9/10, "Your Grandson"⟩]⟩ 200000
    ⟨"Daniel", 9/10, "Your Grandson"⟩ rfl (by decide)
    (by have h : ((3 : ℚ)/5 < 9/10) := by norm_num
        simp [ingestStep, canShowPerson, lookupLast, h])

/-- C8 (counterexample): the claim says a tick elapsing while a unit of
work is in flight is skipped, bounding in-flight work to one, but
`setInterval(captureAndSendFrame, 2000)` installs the callback with no
in-flight guard: two consecutive ticks with no intervening completion
leave two cycles in flight. -/
theorem C8_counterexample_two_inflight :
    (runEvents initialSession [.tick, .tick]).inFlightCount = 2 := rfl

/-- C8 (amended): ticks are never skipped: while the interval is
registered, every timer tick starts a new invocation of
`captureAndSendFrame`, incrementing the number of in-flight cycles
regardless of how many are already running, so in-flight work is bounded
only by the number of ticks, not by one. -/
theorem C8_tick_never_skipped_amended (s : SessionState)
    (h : s.intervalActive = true) :
    (stepEvent s .tick).inFlightCount = s.inFlightCount + 1 := by
  simp [stepEvent, h]

/-- C8 witness: the amended theorem applied to a session that already has
one cycle in flight: the tick still starts a second one. -/
theorem C8_tick_never_skipped_amended_witness :
    (stepEvent ⟨true, 1, [], []⟩ .tick).inFlightCount = 2 :=
  C8_tick_never_skipped_amended ⟨true, 1, [], []⟩ rfl

/-- C10 (confirmed): the detection card renders person details exactly for
the two hardcoded keys of `profileData` — when the first detected person
passes threshold and cooldown, the acceptance and the cooldown recording
happen for any name, while the card body renders details iff the name is
`"Daniel"` or `"Michelle"`. -/
theorem C10_profile_table_only (st : GateState) (p : DetectedPerson)
    (rest : List DetectedPerson) (now : Int)
    (hsim : (3 : ℚ)/5 < p.similarity)
    (hcool : canShowPerson st p.name now = true) :
    ingestStep st ⟨some (p :: rest)⟩ now = (record st p.name now, some p) ∧
    ((renderCard (some p)).isSome ↔ p.name = "Daniel" ∨ p.name = "Michelle") := by
  constructor
  · simp [ingestStep, hsim, hcool]
  · by_cases h1 : p.name = "Daniel"
    · simp [renderCard, profileData, List.lookup, h1]
    · have hb1 : (p.name == "Daniel") = false := by simp [h1]
      by_cases h2 : p.name = "Michelle"
      · simp [renderCard, profileData, List.lookup, hb1, h2]
      · have hb2 : (p.name == "Michelle") = false := by simp [h2]
        simp [renderCard, profileData, List.lookup, hb1, hb2, h1, h2]

/-- C10 witness: a recognized person `"Bob"` outside the profile table is
accepted and recorded, yet no card details are rendered. -/
theorem C10_profile_table_only_witness :
    ingestStep [] ⟨some [⟨"Bob", 9/10, "friend"⟩]⟩ 40000
      = (record [] "Bob" 40000, some ⟨"Bob", 9/10, "friend"⟩) ∧
    ((renderCard (some ⟨"Bob", 9/10, "friend"⟩)).isSome ↔
      "Bob" = "Daniel" ∨ "Bob" = "Michelle") :=
  C10_profile_table_only [] ⟨"Bob", 9/10, "friend"⟩ [] 40000 (by norm_num) rfl
